import Mathlib

/-!
Shallow embedding of `pkg/kubelet/images/state.go`, the kubelet image
manager credential-verification cache.

Modelling conventions:
- The mutexes in the source (`imageManagerCache.lock`, `ImagePullInfo.mux`,
  and the local lock in `refreshImageManagerCache`) only guard shared state
  and carry no data flow; the embedding gives the single-threaded semantics,
  threading an explicit `CacheState` through every operation.
- `time.Time` and `v1.Duration` are integer nanosecond counts; `time.Now()`
  becomes an explicit `now` argument of the refresh sweep.
- Go maps (`ImagePullCacheMap`, the `Auths` field) are association lists
  with map semantics (`mapLookup` / `mapInsert` / `mapErase`); a stored
  `*EnsuredInfo` nil pointer is `none`.  The nil-map guards in the source
  are vacuous for caches built by `newImageManagerCache` (which allocates
  the map), so `cache` is a plain list.
- The cache directory is a finite map from image reference to file content:
  `filepath.Join(imageStateManagerPath, imageRef)` is keyed by `imageRef`,
  and the empty reference denotes the directory itself (`Disk.baseExists`).
  A file is either a well-formed JSON encoding of a record (`DiskFile.good`)
  or malformed bytes (`DiskFile.bad`); JSON encode/decode of a record is
  faithful.  `Disk.removeErr` lists paths whose removal fails with an error
  other than not-exist (fault injection for the error-path theorems).
- Every filesystem touch (stat, read, write with its file mode, remove) is
  appended to `CacheState.trace`, so theorems can state which accesses a
  call performs.
-/

namespace ImageState

/-- Lookup in a string-keyed association list (a Go map read). -/
def mapLookup {α : Type} (key : String) : List (String × α) → Option α
  | [] => none
  | (k, v) :: rest => if k = key then some v else mapLookup key rest

/-- Drop every binding of `key` (a Go map delete). -/
def mapErase {α : Type} (key : String) : List (String × α) → List (String × α)
  | [] => []
  | (k, v) :: rest => if k = key then mapErase key rest else (k, v) :: mapErase key rest

/-- Bind `key` to `v`, superseding any previous binding (a Go map assign). -/
def mapInsert {α : Type} (key : String) (v : α) (l : List (String × α)) :
    List (String × α) :=
  (key, v) :: mapErase key l

theorem mapLookup_insert_self {α : Type} (k : String) (v : α) (l : List (String × α)) :
    mapLookup k (mapInsert k v l) = some v := by
  simp [mapInsert, mapLookup]

theorem mapLookup_erase_self {α : Type} (k : String) (l : List (String × α)) :
    mapLookup k (mapErase k l) = none := by
  induction l with
  | nil => rfl
  | cons p rest ih =>
      obtain ⟨k0, v⟩ := p
      by_cases h0 : k0 = k
      · simp [mapErase, h0, ih]
      · simp [mapErase, h0, mapLookup, ih]

theorem mapLookup_erase_ne {α : Type} {key k : String} (h : key ≠ k)
    (l : List (String × α)) :
    mapLookup key (mapErase k l) = mapLookup key l := by
  induction l with
  | nil => rfl
  | cons p rest ih =>
      obtain ⟨k0, v⟩ := p
      by_cases h0 : k0 = k
      · have hne : ¬ k0 = key := by
          intro hx
          exact h (by rw [← hx, h0])
        simp [mapErase, h0, mapLookup, hne, Ne.symm h, ih]
      · simp [mapErase, h0, mapLookup, ih]

theorem mapLookup_insert_ne {α : Type} {key k : String} (h : key ≠ k) (v : α)
    (l : List (String × α)) :
    mapLookup key (mapInsert k v l) = mapLookup key l := by
  have hk : ¬ k = key := fun hx => h (hx ▸ rfl)
  simp [mapInsert, mapLookup, hk, mapLookup_erase_ne h]

/-- `EnsuredInfo` from state.go: whether a credential hash was successfully
verified for the image and when that last happened (nanoseconds since the
epoch). -/
structure EnsuredInfo where
  ensured : Bool
  lastEnsuredDate : Int
  deriving DecidableEq, Repr

/-- `ImagePullInfo` from state.go: the `Auths` map from credential-hash to
`*EnsuredInfo` (a `none` value is a stored nil pointer).  The `mux` field
carries no data and is elided. -/
structure ImagePullInfo where
  auths : List (String × Option EnsuredInfo)
  deriving DecidableEq, Repr

/-- Content of one cache file under the image state manager directory. -/
inductive DiskFile
  | good (info : ImagePullInfo)
  | bad
  deriving DecidableEq, Repr

/-- The on-disk cache directory.  `files` maps an image reference to the
content of its file; `baseExists` says whether the directory itself exists
(the path the empty image reference joins to); `removeErr` are paths whose
removal fails with an error other than not-exist. -/
structure Disk where
  baseExists : Bool
  files : List (String × DiskFile)
  removeErr : List String
  deriving DecidableEq, Repr

/-- One filesystem access, as performed by the persistence code paths. -/
inductive FsOp
  | stat (ref : String)
  | read (ref : String)
  | write (ref : String) (mode : Nat)
  | remove (ref : String)
  deriving DecidableEq, Repr

/-- Errors surfaced by the cache operations. -/
inductive CacheErr
  | notExist
  | io
  | decode
  deriving DecidableEq, Repr

/-- `imageManagerCache` together with the disk it acts on and the trace of
filesystem accesses performed so far. -/
structure CacheState where
  cache : List (String × ImagePullInfo)
  disk : Disk
  trace : List FsOp
  deriving DecidableEq, Repr

/-- Result of `os.Stat` on `filepath.Join(imageStateManagerPath, imageRef)`:
for the empty reference the joined path is the cache directory itself. -/
def fileExists (d : Disk) (imageRef : String) : Bool :=
  if imageRef = "" then d.baseExists else (mapLookup imageRef d.files).isSome

/-- state.go 202-230, `loadImageManagerCache`: stat the path (not-exist is
not an error), return early for the empty reference, then read the file,
decode it, and replace the in-memory record with the decoded one.  The
final `none` branch is unreachable, since the stat succeeded. -/
def loadImageManagerCache (s : CacheState) (imageRef : String) :
    CacheState × Option CacheErr :=
  let s1 : CacheState := { s with trace := s.trace ++ [FsOp.stat imageRef] }
  if fileExists s.disk imageRef then
    if imageRef = "" then (s1, none)
    else
      match mapLookup imageRef s.disk.files with
      | some (DiskFile.good info) =>
          ({ s1 with cache := mapInsert imageRef info s1.cache,
                     trace := s1.trace ++ [FsOp.read imageRef] }, none)
      | some DiskFile.bad =>
          ({ s1 with trace := s1.trace ++ [FsOp.read imageRef] }, some CacheErr.decode)
      | none => (s1, some CacheErr.io)
  else (s1, none)

/-- state.go 101-112, `getImagePullInfo`: calls `loadImageManagerCache`
and discards its error, then returns the in-memory record, if any. -/
def getImagePullInfo (s : CacheState) (imageRef : String) :
    CacheState × Option ImagePullInfo :=
  let s1 := (loadImageManagerCache s imageRef).1
  (s1, mapLookup imageRef s1.cache)

/-- state.go 114-128, `getAuthInfo`: resolve the record via
`getImagePullInfo`, then look the hash up in its auths map. -/
def getAuthInfo (s : CacheState) (imageRef hash : String) :
    CacheState × Option EnsuredInfo :=
  let r := getImagePullInfo s imageRef
  match r.2 with
  | none => (r.1, none)
  | some info =>
      match mapLookup hash info.auths with
      | some a => (r.1, a)
      | none => (r.1, none)

/-- state.go 181-200, `storeImageManagerCache`: fetches the record through
`getImagePullInfo` (which re-reads any existing disk file), does nothing
for a missing record or the empty reference, and otherwise writes the JSON
encoding with `os.WriteFile(path, data, 0644)`. -/
def storeImageManagerCache (s : CacheState) (imageRef : String) :
    CacheState × Option CacheErr :=
  let r := getImagePullInfo s imageRef
  match r.2 with
  | none => (r.1, none)
  | some info =>
      if imageRef = "" then (r.1, none)
      else
        ({ r.1 with
            disk := { r.1.disk with
                        files := mapInsert imageRef (DiskFile.good info) r.1.disk.files },
            trace := r.1.trace ++ [FsOp.write imageRef 0o644] }, none)

/-- state.go 130-140, `setImagePullInfo`: replace the whole record for
`imageRef` with the single `{hash: data}` pair, then persist it. -/
def setImagePullInfo (s : CacheState) (imageRef hash : String)
    (data : Option EnsuredInfo) : CacheState × Option CacheErr :=
  let s1 : CacheState :=
    { s with cache := mapInsert imageRef (ImagePullInfo.mk [(hash, data)]) s.cache }
  storeImageManagerCache s1 imageRef

/-- `os.Remove` on `filepath.Join(imageStateManagerPath, imageRef)`:
injected failure for paths in `removeErr`; for the empty reference the
joined path is the cache directory itself, whose removal succeeds when it
exists and is empty, fails with a non-not-exist error (ENOTEMPTY) when it
still holds files, and fails with not-exist when it is absent; for any
other reference, deletion of the file, or the not-exist error when the
file is absent. -/
def osRemove (d : Disk) (imageRef : String) : Disk × Option CacheErr :=
  if imageRef ∈ d.removeErr then (d, some CacheErr.io)
  else if imageRef = "" then
    if d.baseExists then
      if d.files = [] then ({ d with baseExists := false }, none)
      else (d, some CacheErr.io)
    else (d, some CacheErr.notExist)
  else if (mapLookup imageRef d.files).isSome then
    ({ d with files := mapErase imageRef d.files }, none)
  else (d, some CacheErr.notExist)

/-- state.go 142-154, `deleteImagePullInfo`: drop the in-memory record,
then remove the backing file, surfacing any removal error. -/
def deleteImagePullInfo (s : CacheState) (imageRef : String) :
    CacheState × Option CacheErr :=
  let s1 : CacheState := { s with cache := mapErase imageRef s.cache }
  let r := osRemove s1.disk imageRef
  ({ s1 with disk := r.1, trace := s1.trace ++ [FsOp.remove imageRef] }, r.2)

/-- state.go 156-165, `setAuthInfo`: memory-only full-record replacement. -/
def setAuthInfo (s : CacheState) (imageRef hash : String)
    (data : Option EnsuredInfo) : CacheState :=
  { s with cache := mapInsert imageRef (ImagePullInfo.mk [(hash, data)]) s.cache }

/-- state.go 167-179, `deleteAuthInfo`: remove one hash entry from the
record's auths map when both the record and the entry exist. -/
def deleteAuthInfo (s : CacheState) (imageRef hash : String) : CacheState :=
  match mapLookup imageRef s.cache with
  | none => s
  | some info =>
      match mapLookup hash info.auths with
      | none => s
      | some _ =>
          { s with
              cache := mapInsert imageRef
                (ImagePullInfo.mk (mapErase hash info.auths)) s.cache }

/-- Inner loop of state.go 242-255, over a snapshot of one record's auths:
a stale non-nil entry is deleted, and then `setImagePullInfo` is invoked
unconditionally for the entry, aborting the sweep on error. -/
def refreshEntries (k : String) (recheckPeriod now : Int) :
    CacheState → List (String × Option EnsuredInfo) → CacheState × Option CacheErr
  | s, [] => (s, none)
  | s, (i, auth) :: rest =>
      let s1 :=
        match auth with
        | some a =>
            if a.lastEnsuredDate + recheckPeriod < now then deleteAuthInfo s k i else s
        | none => s
      let r := setImagePullInfo s1 k i auth
      match r.2 with
      | some e => (r.1, some e)
      | none => refreshEntries k recheckPeriod now r.1 rest

/-- Outer loop of state.go 241-256, over a snapshot of the cache map
(the loop body replaces values only at the key being visited, so the
snapshot matches the Go map range). -/
def refreshRecords (recheckPeriod now : Int) :
    CacheState → List (String × ImagePullInfo) → CacheState × Option CacheErr
  | s, [] => (s, none)
  | s, (k, v) :: rest =>
      let r := refreshEntries k recheckPeriod now s v.auths
      match r.2 with
      | some e => (r.1, some e)
      | none => refreshRecords recheckPeriod now r.1 rest

/-- state.go 232-258, `refreshImageManagerCache`; `time.Now()` is passed
in as `now`. -/
def refreshImageManagerCache (s : CacheState) (recheck : Bool)
    (recheckPeriod now : Int) : CacheState × Option CacheErr :=
  if recheck = true ∧ recheckPeriod = 0 then (s, none)
  else refreshRecords recheckPeriod now s s.cache

/-- Hydration loop of state.go 91-97: load each initial reference, giving
up on the first failure. -/
def hydrateAll : CacheState → List String → Option CacheState
  | s, [] => some s
  | s, imageRef :: rest =>
      let r := loadImageManagerCache s imageRef
      match r.2 with
      | some _ => none
      | none => hydrateAll r.1 rest

/-- state.go 85-99, `newImageManagerCache`: fresh empty map, then eager
hydration of the given references; returns nil when any hydration fails. -/
def newImageManagerCache (disk : Disk) (imageRefs : List String) :
    Option CacheState :=
  hydrateAll (CacheState.mk [] disk []) imageRefs

/-- Loading a reference with no disk file (and, for the empty reference,
no directory) only performs the stat. -/
theorem load_no_file (s : CacheState) (imageRef : String)
    (h : fileExists s.disk imageRef = false) :
    loadImageManagerCache s imageRef =
      ({ s with trace := s.trace ++ [FsOp.stat imageRef] }, none) := by
  simp [loadImageManagerCache, h]

/-- Loading the empty reference stats the base path and returns early. -/
theorem load_empty_ref (s : CacheState) :
    loadImageManagerCache s "" =
      ({ s with trace := s.trace ++ [FsOp.stat ""] }, none) := by
  cases hb : s.disk.baseExists <;> simp [loadImageManagerCache, fileExists, hb]

/-- Loading a reference whose file decodes replaces the in-memory record. -/
theorem load_good (s : CacheState) (imageRef : String) (info : ImagePullInfo)
    (h : ¬ imageRef = "")
    (hl : mapLookup imageRef s.disk.files = some (DiskFile.good info)) :
    loadImageManagerCache s imageRef =
      ({ s with cache := mapInsert imageRef info s.cache,
                trace := s.trace ++ [FsOp.stat imageRef, FsOp.read imageRef] }, none) := by
  simp [loadImageManagerCache, fileExists, h, hl]

/-- Loading a reference whose file is malformed surfaces the decode error. -/
theorem load_bad (s : CacheState) (imageRef : String)
    (h : ¬ imageRef = "") (hl : mapLookup imageRef s.disk.files = some DiskFile.bad) :
    loadImageManagerCache s imageRef =
      ({ s with trace := s.trace ++ [FsOp.stat imageRef, FsOp.read imageRef] },
        some CacheErr.decode) := by
  simp [loadImageManagerCache, fileExists, h, hl]

/-- A load appends either just the stat, or the stat and the read. -/
theorem load_trace_cases (s : CacheState) (imageRef : String) :
    (loadImageManagerCache s imageRef).1.trace = s.trace ++ [FsOp.stat imageRef] ∨
    (loadImageManagerCache s imageRef).1.trace
      = s.trace ++ [FsOp.stat imageRef, FsOp.read imageRef] := by
  cases hf : fileExists s.disk imageRef with
  | false => left; simp [loadImageManagerCache, hf]
  | true =>
      by_cases he : imageRef = ""
      · left; simp [loadImageManagerCache, hf, he]
      · cases hl : mapLookup imageRef s.disk.files with
        | none => left; simp [loadImageManagerCache, hf, he, hl]
        | some f =>
            cases f with
            | good info => right; simp [loadImageManagerCache, hf, he, hl]
            | bad => right; simp [loadImageManagerCache, hf, he, hl]

/-- A write operation found in the trace after a load was already there. -/
theorem write_mem_load_trace (s : CacheState) (imageRef ref : String) (m : Nat)
    (hmem : FsOp.write ref m ∈ (loadImageManagerCache s imageRef).1.trace) :
    FsOp.write ref m ∈ s.trace := by
  rcases load_trace_cases s imageRef with h | h <;> rw [h] at hmem <;>
    simpa using hmem

/-- A store leaves the trace of its embedded load unchanged, or appends
exactly one write with mode `0o644`. -/
theorem store_trace_cases (s : CacheState) (imageRef : String) :
    (storeImageManagerCache s imageRef).1.trace
      = (loadImageManagerCache s imageRef).1.trace ∨
    (storeImageManagerCache s imageRef).1.trace
      = (loadImageManagerCache s imageRef).1.trace ++ [FsOp.write imageRef 0o644] := by
  rcases h2 : (getImagePullInfo s imageRef).2 with _ | info
  · left
    simp only [storeImageManagerCache]
    rw [h2]
    simp [getImagePullInfo]
  · by_cases he : imageRef = ""
    · left
      simp only [storeImageManagerCache]
      rw [h2]
      simp [he, getImagePullInfo]
    · right
      simp only [storeImageManagerCache]
      rw [h2]
      simp [he, getImagePullInfo]

/-- Cache state for the C1 failing input: one record `"img"` with one
ensured auth entry whose `lastEnsuredDate` is `now - 2 * recheckPeriod`
(nanosecond values scaled down: 80 = 100 - 2 * 10); empty disk. -/
def c1Start : CacheState :=
  CacheState.mk [("img", ImagePullInfo.mk [("h1", some (EnsuredInfo.mk true 80))])]
    (Disk.mk true [] []) []

/-- C1: evaluation of the code at the failing input.  A sweep with
`recheck = true` and `recheckPeriod = 10` at `now = 100` over an entry
with `lastEnsuredDate = 80` (so `lastEnsuredDate + recheckPeriod` is
before `now`) returns no error, yet the entry is still retrievable via
`getAuthInfo` afterwards, and has even been persisted to disk: the
unconditional `setImagePullInfo(k, i, auth)` call on state.go line 251
re-adds the entry that `deleteAuthInfo` on line 244 just deleted.  The
claim says the entry is removed and no longer retrievable. -/
theorem c1_refresh_keeps_stale_entry :
    (refreshImageManagerCache c1Start true 10 100).2 = none ∧
    (getAuthInfo (refreshImageManagerCache c1Start true 10 100).1 "img" "h1").2
      = some (EnsuredInfo.mk true 80) ∧
    mapLookup "img" (refreshImageManagerCache c1Start true 10 100).1.disk.files
      = some (DiskFile.good (ImagePullInfo.mk [("h1", some (EnsuredInfo.mk true 80))])) := by
  decide

/-- Cache state for the C2 counterexample: one record `"img"` with one
fresh auth entry (`lastEnsuredDate = now`); no file on disk yet. -/
def c2Start : CacheState :=
  CacheState.mk [("img", ImagePullInfo.mk [("h1", some (EnsuredInfo.mk true 100))])]
    (Disk.mk true [] []) []

/-- C2 counterexample: a sweep with `recheck = false` (and non-zero
`recheckPeriod = 5`) is not a no-op — the guard on state.go line 236 is
`recheck && recheckPeriod == 0`, so with `recheck = false` the loop still
runs and creates an on-disk file for the memory-only record, contradicting
the claim that every on-disk file is left exactly as it was. -/
theorem c2_recheck_false_not_noop :
    (refreshImageManagerCache c2Start false 5 100).2 = none ∧
    (refreshImageManagerCache c2Start false 5 100).1.disk.files ≠ c2Start.disk.files := by
  decide

/-- C2 (amended): only the `recheck = true` and `recheckPeriod = 0`
combination short-circuits the sweep: it returns no error and leaves the
whole state (memory, disk and trace) exactly as it was.  With
`recheck = false` the sweep is not skipped and runs its full pass. -/
theorem c2_zero_period_sweep_noop (s : CacheState) (now : Int) :
    refreshImageManagerCache s true 0 now = (s, none) := by
  simp [refreshImageManagerCache]

/-- Cache state for the C3 counterexample: empty memory, but the disk
already holds a file for `"img"` recording a different hash `"h0"`. -/
def c3Start : CacheState :=
  CacheState.mk []
    (Disk.mk true
      [("img", DiskFile.good (ImagePullInfo.mk [("h0", some (EnsuredInfo.mk true 1))]))]
      []) []

/-- C3 counterexample: with a pre-existing disk file for `"img"`,
`setImagePullInfo("img", "h1", e)` followed by `getAuthInfo("img", "h1")`
returns nothing instead of `e`: `storeImageManagerCache` fetches the
record through `getImagePullInfo`, whose embedded load re-reads the old
disk file and overwrites the record that was just set (state.go lines
185, 105 and 228). -/
theorem c3_preexisting_file_breaks_roundtrip :
    (setImagePullInfo c3Start "img" "h1" (some (EnsuredInfo.mk true 50))).2 = none ∧
    (getAuthInfo (setImagePullInfo c3Start "img" "h1" (some (EnsuredInfo.mk true 50))).1
        "img" "h1").2 = none := by
  decide

/-- C3 (amended): the round trip holds when the image reference is
non-empty and no file for it exists on disk yet: `setImagePullInfo(r, h, e)`
returns no error, `getAuthInfo(r, h)` on the same cache returns `e`, and a
fresh cache instance constructed against the resulting disk and hydrated
with `r` also returns `e`.  When a file for `r` already exists, the store
path reloads it and the new entry is lost. -/
theorem c3_roundtrip_fresh_file (s : CacheState) (r hsh : String) (e : EnsuredInfo)
    (hr : ¬ r = "") (hd : mapLookup r s.disk.files = none) :
    (setImagePullInfo s r hsh (some e)).2 = none ∧
    (getAuthInfo (setImagePullInfo s r hsh (some e)).1 r hsh).2 = some e ∧
    Option.map (fun s2 => (getAuthInfo s2 r hsh).2)
      (newImageManagerCache (setImagePullInfo s r hsh (some e)).1.disk [r])
      = some (some e) := by
  have hf : fileExists s.disk r = false := by
    simp [fileExists, hr, hd]
  simp [setImagePullInfo, storeImageManagerCache, getImagePullInfo, getAuthInfo,
    newImageManagerCache, hydrateAll, load_no_file, load_good, hf, hr,
    mapLookup_insert_self, mapLookup]

/-- C3 witness: the amended round trip evaluated on a fresh cache with an
empty disk, reference `"img"`, hash `"h1"` and a concrete entry. -/
theorem c3_roundtrip_fresh_file_witness :
    (¬ "img" = "" ∧ mapLookup "img" (CacheState.mk [] (Disk.mk true [] []) []).disk.files = none) ∧
    ((setImagePullInfo (CacheState.mk [] (Disk.mk true [] []) []) "img" "h1"
        (some (EnsuredInfo.mk true 7))).2 = none ∧
     (getAuthInfo (setImagePullInfo (CacheState.mk [] (Disk.mk true [] []) []) "img" "h1"
        (some (EnsuredInfo.mk true 7))).1 "img" "h1").2 = some (EnsuredInfo.mk true 7) ∧
     Option.map (fun s2 => (getAuthInfo s2 "img" "h1").2)
       (newImageManagerCache (setImagePullInfo (CacheState.mk [] (Disk.mk true [] []) [])
          "img" "h1" (some (EnsuredInfo.mk true 7))).1.disk ["img"])
       = some (some (EnsuredInfo.mk true 7))) :=
  ⟨⟨by decide, by decide⟩,
   c3_roundtrip_fresh_file (CacheState.mk [] (Disk.mk true [] []) []) "img" "h1"
     (EnsuredInfo.mk true 7) (by decide) (by decide)⟩

/-- Cache state for the C4 counterexample: fresh cache, empty disk. -/
def c4Start : CacheState := CacheState.mk [] (Disk.mk true [] []) []

/-- C4 counterexample: after `setImagePullInfo("img", "h1", e1)` and then
`setImagePullInfo("img", "h2", e2)` on a fresh cache with an empty disk,
`getAuthInfo("img", "h1")` returns `e1` — not nothing as the claim states:
the second set's store path reloads the file persisted by the first set
and discards the `{h2: e2}` replacement. -/
theorem c4_overwrite_claim_fails :
    (getAuthInfo
      (setImagePullInfo (setImagePullInfo c4Start "img" "h1"
          (some (EnsuredInfo.mk true 1))).1
        "img" "h2" (some (EnsuredInfo.mk true 2))).1 "img" "h1").2
      = some (EnsuredInfo.mk true 1) := by
  decide

/-- C4 (amended): for a non-empty reference `r` with no disk file yet,
`setImagePullInfo(r, h1, e1)` followed by `setImagePullInfo(r, h2, e2)`
leaves the record for `r` containing only the `{h1: e1}` pair: the
in-memory full-record overwrite of the second call is undone when its
store path reloads the file written by the first call, so afterwards
`getAuthInfo(r, h1)` returns `e1` and `getAuthInfo(r, h2)` returns
nothing. -/
theorem c4_second_set_clobbered (s : CacheState) (r h1 h2 : String)
    (e1 e2 : EnsuredInfo) (hr : ¬ r = "") (hh : ¬ h1 = h2)
    (hd : mapLookup r s.disk.files = none) :
    mapLookup r
        (setImagePullInfo (setImagePullInfo s r h1 (some e1)).1 r h2 (some e2)).1.cache
      = some (ImagePullInfo.mk [(h1, some e1)]) ∧
    (getAuthInfo (setImagePullInfo (setImagePullInfo s r h1 (some e1)).1 r h2
        (some e2)).1 r h1).2 = some e1 ∧
    (getAuthInfo (setImagePullInfo (setImagePullInfo s r h1 (some e1)).1 r h2
        (some e2)).1 r h2).2 = none := by
  have hf : fileExists s.disk r = false := by
    simp [fileExists, hr, hd]
  simp [setImagePullInfo, storeImageManagerCache, getImagePullInfo, getAuthInfo,
    load_no_file, load_good, hf, hr, hh, mapLookup_insert_self, mapLookup]

/-- C4 witness: the amended statement evaluated on a fresh cache with
empty disk, reference `"img"`, hashes `"h1"`, `"h2"` and concrete entries. -/
theorem c4_second_set_clobbered_witness :
    (¬ "img" = "" ∧ ¬ "h1" = "h2" ∧ mapLookup "img" c4Start.disk.files = none) ∧
    (mapLookup "img"
        (setImagePullInfo (setImagePullInfo c4Start "img" "h1"
            (some (EnsuredInfo.mk true 1))).1 "img" "h2"
          (some (EnsuredInfo.mk true 2))).1.cache
        = some (ImagePullInfo.mk [("h1", some (EnsuredInfo.mk true 1))]) ∧
     (getAuthInfo (setImagePullInfo (setImagePullInfo c4Start "img" "h1"
          (some (EnsuredInfo.mk true 1))).1 "img" "h2"
        (some (EnsuredInfo.mk true 2))).1 "img" "h1").2 = some (EnsuredInfo.mk true 1) ∧
     (getAuthInfo (setImagePullInfo (setImagePullInfo c4Start "img" "h1"
          (some (EnsuredInfo.mk true 1))).1 "img" "h2"
        (some (EnsuredInfo.mk true 2))).1 "img" "h2").2 = none) :=
  ⟨⟨by decide, by decide, by decide⟩,
   c4_second_set_clobbered c4Start "img" "h1" "h2" (EnsuredInfo.mk true 1)
     (EnsuredInfo.mk true 2) (by decide) (by decide) (by decide)⟩

/-- C5 counterexample: deleting a record with no backing file is an error.
`deleteImagePullInfo` (state.go 149-152) returns every `os.Remove` failure,
with no `os.IsNotExist` exemption, so the very first delete of `"img"` on
an empty disk surfaces the not-exist error, contradicting the claim that
such a delete returns no error. -/
theorem c5_delete_missing_file_errors :
    (deleteImagePullInfo (CacheState.mk [] (Disk.mk true [] []) []) "img").2
      = some CacheErr.notExist := by
  decide

/-- C5 (amended): for a non-empty image reference with no backing file
on disk (and no other injected I/O fault), `deleteImagePullInfo` removes
any in-memory record but returns the not-exist error from `os.Remove`,
and a second call returns the same error again: not-exist failures are
surfaced like any other I/O failure, so deletion is not error-free on a
missing file. -/
theorem c5_delete_surfaces_notexist (s : CacheState) (r : String) (hr : ¬ r = "")
    (hnf : mapLookup r s.disk.files = none) (hre : r ∉ s.disk.removeErr) :
    (deleteImagePullInfo s r).2 = some CacheErr.notExist ∧
    mapLookup r (deleteImagePullInfo s r).1.cache = none ∧
    (deleteImagePullInfo (deleteImagePullInfo s r).1 r).2 = some CacheErr.notExist := by
  simp [deleteImagePullInfo, osRemove, hr, hnf, hre, mapLookup_erase_self]

/-- C5 witness: deleting `"img"` twice on a cache whose disk has no file
for it. -/
theorem c5_delete_surfaces_notexist_witness :
    (¬ "img" = "" ∧
     mapLookup "img" (CacheState.mk [] (Disk.mk true [] []) []).disk.files = none ∧
     "img" ∉ (CacheState.mk [] (Disk.mk true [] []) []).disk.removeErr) ∧
    ((deleteImagePullInfo (CacheState.mk [] (Disk.mk true [] []) []) "img").2
        = some CacheErr.notExist ∧
     mapLookup "img"
        (deleteImagePullInfo (CacheState.mk [] (Disk.mk true [] []) []) "img").1.cache
        = none ∧
     (deleteImagePullInfo
        (deleteImagePullInfo (CacheState.mk [] (Disk.mk true [] []) []) "img").1 "img").2
        = some CacheErr.notExist) :=
  ⟨⟨by decide, by decide, by decide⟩,
   c5_delete_surfaces_notexist (CacheState.mk [] (Disk.mk true [] []) []) "img"
     (by decide) (by decide) (by decide)⟩

/-- Cache state for the C6 counterexample: `"img"` is resident in memory
with hash `"h1"`, while its disk file records a different hash `"h2"`. -/
def c6Start : CacheState :=
  CacheState.mk [("img", ImagePullInfo.mk [("h1", some (EnsuredInfo.mk true 1))])]
    (Disk.mk true
      [("img", DiskFile.good (ImagePullInfo.mk [("h2", some (EnsuredInfo.mk true 2))]))]
      []) []

/-- C6 counterexample: with `"img"` already resident, the read path is not
a no-op — `getImagePullInfo` calls `loadImageManagerCache`, which has no
already-in-memory check (state.go 202-230) and replaces the resident
record with the disk content, contradicting the claim that the in-memory
record is left unchanged. -/
theorem c6_resident_record_replaced :
    (getImagePullInfo c6Start "img").2
      = some (ImagePullInfo.mk [("h2", some (EnsuredInfo.mk true 2))]) ∧
    mapLookup "img" (getImagePullInfo c6Start "img").1.cache
      ≠ mapLookup "img" c6Start.cache := by
  decide

/-- C6 (amended): hydration on the read path is a no-op only when no disk
file for the reference exists: then `getImagePullInfo` leaves memory and
disk unchanged and returns the resident record.  When a file exists, its
content replaces the in-memory record even if one is already resident. -/
theorem c6_hydration_noop_without_file (s : CacheState) (r : String)
    (hd : mapLookup r s.disk.files = none) :
    (getImagePullInfo s r).1.cache = s.cache ∧
    (getImagePullInfo s r).1.disk = s.disk ∧
    (getImagePullInfo s r).2 = mapLookup r s.cache := by
  by_cases hr : r = ""
  · subst hr
    simp [getImagePullInfo, load_empty_ref]
  · have hf : fileExists s.disk r = false := by
      simp [fileExists, hr, hd]
    simp [getImagePullInfo, load_no_file s r hf]

/-- C6 witness: reading resident `"img"` with no disk file present leaves
the record in place and returns it. -/
theorem c6_hydration_noop_without_file_witness :
    mapLookup "img" (CacheState.mk
        [("img", ImagePullInfo.mk [("h1", some (EnsuredInfo.mk true 1))])]
        (Disk.mk true [] []) []).disk.files = none ∧
    ((getImagePullInfo (CacheState.mk
        [("img", ImagePullInfo.mk [("h1", some (EnsuredInfo.mk true 1))])]
        (Disk.mk true [] []) []) "img").1.cache
      = (CacheState.mk
        [("img", ImagePullInfo.mk [("h1", some (EnsuredInfo.mk true 1))])]
        (Disk.mk true [] []) []).cache ∧
     (getImagePullInfo (CacheState.mk
        [("img", ImagePullInfo.mk [("h1", some (EnsuredInfo.mk true 1))])]
        (Disk.mk true [] []) []) "img").1.disk
      = (CacheState.mk
        [("img", ImagePullInfo.mk [("h1", some (EnsuredInfo.mk true 1))])]
        (Disk.mk true [] []) []).disk ∧
     (getImagePullInfo (CacheState.mk
        [("img", ImagePullInfo.mk [("h1", some (EnsuredInfo.mk true 1))])]
        (Disk.mk true [] []) []) "img").2
      = mapLookup "img" (CacheState.mk
        [("img", ImagePullInfo.mk [("h1", some (EnsuredInfo.mk true 1))])]
        (Disk.mk true [] []) []).cache) :=
  ⟨by decide,
   c6_hydration_noop_without_file (CacheState.mk
      [("img", ImagePullInfo.mk [("h1", some (EnsuredInfo.mk true 1))])]
      (Disk.mk true [] []) []) "img" (by decide)⟩

/-- Cache state for the C7 counterexample: empty memory, malformed JSON
in the disk file of `"img"`. -/
def c7Start : CacheState := CacheState.mk [] (Disk.mk true [("img", DiskFile.bad)] []) []

/-- C7 counterexample: a malformed file makes `loadImageManagerCache`
return the decode error, yet reading the same reference through
`getImagePullInfo` or `getAuthInfo` yields an empty result with no error:
`getImagePullInfo` discards the load error on state.go line 105 (its
signature carries no error), contradicting the claim that the decode
error is surfaced on that read path as a hard failure. -/
theorem c7_get_swallows_decode_error :
    (loadImageManagerCache c7Start "img").2 = some CacheErr.decode ∧
    (getImagePullInfo c7Start "img").2 = none ∧
    (getAuthInfo c7Start "img" "h1").2 = none := by
  decide

/-- C7 (amended): a decode failure is surfaced by `loadImageManagerCache`
itself, and hence fails cache construction, which hydrates through it;
but the `getImagePullInfo`/`getAuthInfo` read path discards the hydration
error and returns whatever is resident (an empty result when nothing is),
leaving memory unchanged. -/
theorem c7_decode_error_on_load_only (s : CacheState) (r : String)
    (hr : ¬ r = "") (hbad : mapLookup r s.disk.files = some DiskFile.bad) :
    (loadImageManagerCache s r).2 = some CacheErr.decode ∧
    newImageManagerCache s.disk [r] = none ∧
    (getImagePullInfo s r).1.cache = s.cache ∧
    (getImagePullInfo s r).2 = mapLookup r s.cache := by
  simp [loadImageManagerCache, getImagePullInfo, newImageManagerCache, hydrateAll,
    fileExists, hr, hbad]

/-- C7 witness: the amended statement evaluated on a cache whose disk
holds a malformed file for `"img"`. -/
theorem c7_decode_error_on_load_only_witness :
    (¬ "img" = "" ∧ mapLookup "img" c7Start.disk.files = some DiskFile.bad) ∧
    ((loadImageManagerCache c7Start "img").2 = some CacheErr.decode ∧
     newImageManagerCache c7Start.disk ["img"] = none ∧
     (getImagePullInfo c7Start "img").1.cache = c7Start.cache ∧
     (getImagePullInfo c7Start "img").2 = mapLookup "img" c7Start.cache) :=
  ⟨⟨by decide, by decide⟩,
   c7_decode_error_on_load_only c7Start "img" (by decide) (by decide)⟩

/-- C8 counterexample: `loadImageManagerCache("")` does touch the
filesystem — state.go line 204 stats `filepath.Join(imageStateManagerPath,
"")` (the cache directory itself) before the empty-reference check on
line 213, so the trace records one stat, contradicting the claim of no
filesystem access at all. -/
theorem c8_empty_load_performs_stat :
    (loadImageManagerCache (CacheState.mk [] (Disk.mk true [] []) []) "").1.trace
      = [FsOp.stat ""] := by
  decide

/-- C8 (amended): the empty image-reference key is a persistence no-op
except for one stat of the base path: `loadImageManagerCache("")` returns
no error and leaves memory and disk unchanged, with exactly a stat
appended to the trace; `storeImageManagerCache("")` and
`setImagePullInfo("", h, e)` return no error and leave the disk unchanged
(creating no file). -/
theorem c8_empty_ref_persistence (s : CacheState) (hsh : String)
    (e : Option EnsuredInfo) :
    (loadImageManagerCache s "").2 = none ∧
    (loadImageManagerCache s "").1.cache = s.cache ∧
    (loadImageManagerCache s "").1.disk = s.disk ∧
    (loadImageManagerCache s "").1.trace = s.trace ++ [FsOp.stat ""] ∧
    (storeImageManagerCache s "").2 = none ∧
    (storeImageManagerCache s "").1.disk = s.disk ∧
    (setImagePullInfo s "" hsh e).2 = none ∧
    (setImagePullInfo s "" hsh e).1.disk = s.disk := by
  cases hc : mapLookup "" s.cache with
  | none =>
      simp [setImagePullInfo, storeImageManagerCache, getImagePullInfo,
        load_empty_ref, mapLookup_insert_self, hc]
  | some info =>
      simp [setImagePullInfo, storeImageManagerCache, getImagePullInfo,
        load_empty_ref, mapLookup_insert_self, hc]

/-- Cache state for the C9 counterexample: one resident record and an
empty disk, so storing the record performs a write. -/
def c9Start : CacheState :=
  CacheState.mk [("img", ImagePullInfo.mk [("h1", some (EnsuredInfo.mk true 1))])]
    (Disk.mk true [] []) []

/-- C9 counterexample: `storeImageManagerCache` writes with
`os.WriteFile(path, byteData, 0644)` (state.go line 195), so the file is
created with mode `0o644` — group- and other-readable — not the
owner-only `0o600` the claim states. -/
theorem c9_write_mode_0644 :
    (storeImageManagerCache c9Start "img").1.trace
      = [FsOp.stat "img", FsOp.write "img" 0o644] ∧ (0o644 : Nat) ≠ 0o600 := by
  decide

/-- C9 (amended): every file written by `storeImageManagerCache` is
created or overwritten with mode `0o644` (owner read/write, group and
other read): any write operation in the trace after a store either was
already there before the call or carries mode `0o644`. -/
theorem c9_store_writes_mode_0644 (s : CacheState) (imageRef ref : String) (m : Nat)
    (hmem : FsOp.write ref m ∈ (storeImageManagerCache s imageRef).1.trace) :
    FsOp.write ref m ∈ s.trace ∨ m = 0o644 := by
  rcases store_trace_cases s imageRef with h | h
  · rw [h] at hmem
    exact Or.inl (write_mem_load_trace s imageRef ref m hmem)
  · rw [h] at hmem
    rcases List.mem_append.mp hmem with h1 | h1
    · exact Or.inl (write_mem_load_trace s imageRef ref m h1)
    · right
      simp at h1
      exact h1.2

/-- C9 witness: storing `"img"` on `c9Start` puts a mode-`0o644` write in
the trace, and the amended theorem applies to it. -/
theorem c9_store_writes_mode_0644_witness :
    FsOp.write "img" 0o644 ∈ (storeImageManagerCache c9Start "img").1.trace ∧
    (FsOp.write "img" 0o644 ∈ c9Start.trace ∨ (0o644 : Nat) = 0o644) :=
  ⟨by decide, c9_store_writes_mode_0644 c9Start "img" "img" 0o644 (by decide)⟩

/-- C10: record deletion is not atomic on error.  For a non-empty
reference that is resident in memory and has a backing file, when
`os.Remove` fails with an error other than not-exist,
`deleteImagePullInfo` surfaces that error — but the in-memory record was
already deleted (state.go line 146 runs before the removal on line 149),
while the disk file survives, and a subsequent `getImagePullInfo`
re-hydrates the stale on-disk record back into memory. -/
theorem c10_delete_nonatomic_on_error (s : CacheState) (r : String)
    (a b : ImagePullInfo) (hr : ¬ r = "") (hioerr : r ∈ s.disk.removeErr)
    (_hmem : mapLookup r s.cache = some a)
    (hfile : mapLookup r s.disk.files = some (DiskFile.good b)) :
    (deleteImagePullInfo s r).2 = some CacheErr.io ∧
    mapLookup r (deleteImagePullInfo s r).1.cache = none ∧
    mapLookup r (deleteImagePullInfo s r).1.disk.files = some (DiskFile.good b) ∧
    (getImagePullInfo (deleteImagePullInfo s r).1 r).2 = some b := by
  simp [deleteImagePullInfo, osRemove, getImagePullInfo, loadImageManagerCache,
    fileExists, hioerr, hr, hfile, mapLookup_erase_self, mapLookup_insert_self]

/-- C10 witness: deleting `"img"` while its removal is fault-injected,
with memory holding `{h1}` and the disk file holding `{h2}`. -/
theorem c10_delete_nonatomic_on_error_witness :
    (¬ "img" = "" ∧
     "img" ∈ (CacheState.mk
        [("img", ImagePullInfo.mk [("h1", some (EnsuredInfo.mk true 5))])]
        (Disk.mk true
          [("img", DiskFile.good (ImagePullInfo.mk [("h2", some (EnsuredInfo.mk true 9))]))]
          ["img"]) []).disk.removeErr ∧
     mapLookup "img" (CacheState.mk
        [("img", ImagePullInfo.mk [("h1", some (EnsuredInfo.mk true 5))])]
        (Disk.mk true
          [("img", DiskFile.good (ImagePullInfo.mk [("h2", some (EnsuredInfo.mk true 9))]))]
          ["img"]) []).cache
       = some (ImagePullInfo.mk [("h1", some (EnsuredInfo.mk true 5))]) ∧
     mapLookup "img" (CacheState.mk
        [("img", ImagePullInfo.mk [("h1", some (EnsuredInfo.mk true 5))])]
        (Disk.mk true
          [("img", DiskFile.good (ImagePullInfo.mk [("h2", some (EnsuredInfo.mk true 9))]))]
          ["img"]) []).disk.files
       = some (DiskFile.good (ImagePullInfo.mk [("h2", some (EnsuredInfo.mk true 9))]))) ∧
    ((deleteImagePullInfo (CacheState.mk
        [("img", ImagePullInfo.mk [("h1", some (EnsuredInfo.mk true 5))])]
        (Disk.mk true
          [("img", DiskFile.good (ImagePullInfo.mk [("h2", some (EnsuredInfo.mk true 9))]))]
          ["img"]) []) "img").2 = some CacheErr.io ∧
     mapLookup "img" (deleteImagePullInfo (CacheState.mk
        [("img", ImagePullInfo.mk [("h1", some (EnsuredInfo.mk true 5))])]
        (Disk.mk true
          [("img", DiskFile.good (ImagePullInfo.mk [("h2", some (EnsuredInfo.mk true 9))]))]
          ["img"]) []) "img").1.cache = none ∧
     mapLookup "img" (deleteImagePullInfo (CacheState.mk
        [("img", ImagePullInfo.mk [("h1", some (EnsuredInfo.mk true 5))])]
        (Disk.mk true
          [("img", DiskFile.good (ImagePullInfo.mk [("h2", some (EnsuredInfo.mk true 9))]))]
          ["img"]) []) "img").1.disk.files
       = some (DiskFile.good (ImagePullInfo.mk [("h2", some (EnsuredInfo.mk true 9))])) ∧
     (getImagePullInfo (deleteImagePullInfo (CacheState.mk
        [("img", ImagePullInfo.mk [("h1", some (EnsuredInfo.mk true 5))])]
        (Disk.mk true
          [("img", DiskFile.good (ImagePullInfo.mk [("h2", some (EnsuredInfo.mk true 9))]))]
          ["img"]) []) "img").1 "img").2
       = some (ImagePullInfo.mk [("h2", some (EnsuredInfo.mk true 9))])) :=
  ⟨⟨by decide, by decide, by decide, by decide⟩,
   c10_delete_nonatomic_on_error (CacheState.mk
      [("img", ImagePullInfo.mk [("h1", some (EnsuredInfo.mk true 5))])]
      (Disk.mk true
        [("img", DiskFile.good (ImagePullInfo.mk [("h2", some (EnsuredInfo.mk true 9))]))]
        ["img"]) [])
     "img" (ImagePullInfo.mk [("h1", some (EnsuredInfo.mk true 5))])
     (ImagePullInfo.mk [("h2", some (EnsuredInfo.mk true 9))])
     (by decide) (by decide) (by decide) (by decide)⟩

end ImageState
